import Mathlib

/-
  Verification of the diff-eq-animation repository.

  The four scripts (3body.py, orbita.py, presa-predador.py, sir.py) share one
  architecture: a vector field, an ODE solve sampled on a fixed evaluation
  grid, and a frame-indexed playback loop.  Below, each vector field and each
  piece of control code relevant to the stated properties is embedded as a
  Lean definition translated from the Python source; real arithmetic uses ℝ
  (with Real.sqrt for Euclidean norms) and control/plumbing code uses ℚ/ℕ so
  that concrete runs are decidable.
-/

namespace DiffEqAnim

noncomputable section RealModel

/-- Euclidean norm of a 2-vector, as computed by np.linalg.norm and by the
explicit np.sqrt(dx**2 + dy**2) in 3body.py. -/
def norm2 (v : ℝ × ℝ) : ℝ := Real.sqrt (v.1 ^ 2 + v.2 ^ 2)

/-! ## 3body.py -/

namespace ThreeBody

/-- State vector of the three-body system, mirroring the unpacking
x1, y1, x2, y2, x3, y3, vx1, vy1, vx2, vy2, vx3, vy3 = state in 3body.py. -/
structure TBState where
  x1 : ℝ
  y1 : ℝ
  x2 : ℝ
  y2 : ℝ
  x3 : ℝ
  y3 : ℝ
  vx1 : ℝ
  vy1 : ℝ
  vx2 : ℝ
  vy2 : ℝ
  vx3 : ℝ
  vy3 : ℝ

/-- three_body_equations(t, state, masses) from 3body.py: pairwise distances,
per-pair force terms, resulting accelerations, and the returned derivative
list [vx1, vy1, vx2, vy2, vx3, vy3, ax1, ay1, ax2, ay2, ax3, ay3]. -/
def three_body_equations (_t : ℝ) (s : TBState) (m1 m2 m3 : ℝ) : List ℝ :=
  let r12 := Real.sqrt ((s.x2 - s.x1) ^ 2 + (s.y2 - s.y1) ^ 2)
  let r13 := Real.sqrt ((s.x3 - s.x1) ^ 2 + (s.y3 - s.y1) ^ 2)
  let r23 := Real.sqrt ((s.x3 - s.x2) ^ 2 + (s.y3 - s.y2) ^ 2)
  let F12x := m2 * (s.x2 - s.x1) / r12 ^ 3
  let F12y := m2 * (s.y2 - s.y1) / r12 ^ 3
  let F13x := m3 * (s.x3 - s.x1) / r13 ^ 3
  let F13y := m3 * (s.y3 - s.y1) / r13 ^ 3
  let F21x := m1 * (s.x1 - s.x2) / r12 ^ 3
  let F21y := m1 * (s.y1 - s.y2) / r12 ^ 3
  let F23x := m3 * (s.x3 - s.x2) / r23 ^ 3
  let F23y := m3 * (s.y3 - s.y2) / r23 ^ 3
  let F31x := m1 * (s.x1 - s.x3) / r13 ^ 3
  let F31y := m1 * (s.y1 - s.y3) / r13 ^ 3
  let F32x := m2 * (s.x2 - s.x3) / r23 ^ 3
  let F32y := m2 * (s.y2 - s.y3) / r23 ^ 3
  let ax1 := F12x + F13x
  let ay1 := F12y + F13y
  let ax2 := F21x + F23x
  let ay2 := F21y + F23y
  let ax3 := F31x + F32x
  let ay3 := F31y + F32y
  [s.vx1, s.vy1, s.vx2, s.vy2, s.vx3, s.vy3, ax1, ay1, ax2, ay2, ax3, ay3]

/-- The three body positions of a state, read off the packed state vector. -/
def pos3 (s : TBState) : Fin 3 → ℝ × ℝ := ![(s.x1, s.y1), (s.x2, s.y2), (s.x3, s.y3)]

/-- The three body velocities of a state, read off the packed state vector. -/
def vel3 (s : TBState) : Fin 3 → ℝ × ℝ := ![(s.vx1, s.vy1), (s.vx2, s.vy2), (s.vx3, s.vy3)]

/-- The acceleration of body i as returned by three_body_equations: entries
6 + 2i and 7 + 2i of the derivative list. -/
def tbAccel (t : ℝ) (s : TBState) (m1 m2 m3 : ℝ) (i : Fin 3) : ℝ × ℝ :=
  ((three_body_equations t s m1 m2 m3).getD (6 + 2 * i.val) 0,
   (three_body_equations t s m1 m2 m3).getD (7 + 2 * i.val) 0)

end ThreeBody

/-! ## Spec-side gravitational formula (for refinement claims) -/

/-- Stated from the spec/claim wording, to be compared with the source fields:
the acceleration of body i is the sum over j ≠ i of
m_j · (pos_j − pos_i) / r_ij^3 with r_ij the Euclidean distance. -/
def specGravAccel {n : ℕ} (p : Fin n → ℝ × ℝ) (m : Fin n → ℝ) (i : Fin n) : ℝ × ℝ :=
  ∑ j ∈ Finset.univ.filter (fun j => j ≠ i), (m j / norm2 (p j - p i) ^ 3) • (p j - p i)

/-- The single pair contribution m_j · (pos_j − pos_i) / r_ij^3 accumulated
onto body i by the pairwise force loops. -/
def pairContrib {n : ℕ} (p : Fin n → ℝ × ℝ) (m : Fin n → ℝ) (i j : Fin n) : ℝ × ℝ :=
  (m j / norm2 (p j - p i) ^ 3) • (p j - p i)

/-! ## orbita.py vector field -/

namespace Orbita

/-- The gravitational constant G = 1.0 of orbita.py. -/
def G : ℝ := 1

/-- compute_acceleration(positions, masses) from orbita.py: for every body i
(including the star, which is body 0) accumulate G * masses[j] * r_vec / r**3
over all j ≠ i. -/
def compute_acceleration {n : ℕ} (positions : Fin n → ℝ × ℝ) (masses : Fin n → ℝ)
    (i : Fin n) : ℝ × ℝ :=
  ∑ j ∈ Finset.univ.filter (fun j => j ≠ i),
    (G * masses j / norm2 (positions j - positions i) ^ 3) • (positions j - positions i)

/-- The body positions solve_system packs for the default configuration:
the star fixed at the origin, the planets at (10,0), (7,0), (15,0). -/
def star_positions : Fin 4 → ℝ × ℝ := ![(0, 0), (10, 0), (7, 0), (15, 0)]

/-- The mass vector solve_system packs for the default configuration:
[mass_star] ++ masses = [50, 1, 0.5, 2]. -/
def star_masses : Fin 4 → ℝ := ![50, 1, 1/2, 2]

end Orbita

/-! ## presa-predador.py -/

namespace PresaPredador

/-- The closure lotka_volterra(t, populations) inside solve_model in
presa-predador.py, with P, C unpacked from the population pair. -/
def lotka_volterra (alpha beta delta gamma : ℝ) (_t : ℝ) (populations : ℝ × ℝ) : ℝ × ℝ :=
  let P := populations.1
  let C := populations.2
  (alpha * P - beta * P * C, delta * P * C - gamma * C)

end PresaPredador

/-! ## sir.py -/

namespace Sir

/-- Total population, the module-level constant population = 1000 in sir.py. -/
def population : ℝ := 1000

/-- The closure sir(t, populations) inside solve_sir in sir.py, with S, I, R
unpacked from the population triple. -/
def sir (beta gamma : ℝ) (_t : ℝ) (populations : ℝ × ℝ × ℝ) : ℝ × ℝ × ℝ :=
  let S := populations.1
  let I := populations.2.1
  let R := populations.2.2
  (-beta * S * I / population, beta * S * I / population - gamma * I, gamma * I)

/-- Total of the three compartments of a state triple. -/
def sirTotal (p : ℝ × ℝ × ℝ) : ℝ := p.1 + p.2.1 + p.2.2

end Sir

end RealModel

/-! ## Playback frame sequence

All four scripts drive playback with matplotlib FuncAnimation, passing an
integer frame count and no repeat argument.  Modelled from matplotlib's
documented FuncAnimation semantics: with frames an integer n and the default
repeat=True, the update callback is called with frames 0, 1, ..., n-1 and the
sequence then restarts from a fresh frame sequence, so the frame shown at the
k-th timer tick is k mod n. -/

namespace Playback

/-- Frame index shown at tick k of a FuncAnimation over n frames with the
default repeat=True (as in 3body.py, orbita.py, presa-predador.py, sir.py). -/
def frameAt (n k : ℕ) : ℕ := k % n

end Playback

/-! ## Evaluation grids and trajectory lengths -/

/-- np.linspace(a, b, n): n evenly spaced samples from a to b inclusive. -/
def linspace (a b : ℚ) (n : ℕ) : List ℚ :=
  (List.range n).map (fun (i : ℕ) => a + (b - a) * (i : ℚ) / ((n : ℚ) - 1))

/-- t_eval = np.linspace(*t_span, 1000) with t_span = (0, 20) in 3body.py. -/
def t_eval_three_body : List ℚ := linspace 0 20 1000

/-- time_eval = np.linspace(*time_span, 2000) with time_span = (0, 100) in
orbita.py. -/
def time_eval : List ℚ := linspace 0 100 2000

/-- t_eval = np.linspace(*t_span, 500) with t_span = (0, 200) in
presa-predador.py. -/
def t_eval_pp : List ℚ := linspace 0 200 500

/-- t_eval = np.linspace(*t_span, 500) with t_span = (0, 200) in sir.py. -/
def t_eval_sir : List ℚ := linspace 0 200 500

/-- Modelled from the documented contract of scipy solve_ivp with t_eval
(success path): the trajectory is the dense-output solution sampled at
exactly the requested evaluation times. -/
def solve_ivp_eval {σ : Type _} (sol : ℚ → σ) (grid : List ℚ) : List σ :=
  grid.map sol

/-- Trajectory returned by solve_three_body for a given dense solution. -/
def solve_three_body_traj {σ : Type _} (sol : ℚ → σ) : List σ :=
  solve_ivp_eval sol t_eval_three_body

/-- Trajectory returned by solve_system in orbita.py for a given solution. -/
def solve_system_traj {σ : Type _} (sol : ℚ → σ) : List σ :=
  solve_ivp_eval sol time_eval

/-- Trajectory returned by solve_model in presa-predador.py. -/
def solve_model_traj {σ : Type _} (sol : ℚ → σ) : List σ :=
  solve_ivp_eval sol t_eval_pp

/-- Trajectory returned by solve_sir in sir.py. -/
def solve_sir_traj {σ : Type _} (sol : ℚ → σ) : List σ :=
  solve_ivp_eval sol t_eval_sir

/-! ## Per-tick visible window -/

/-- Python slice xs[a:b] for nonnegative bounds: the elements at indices
a ≤ i < min b (length xs). -/
def pySlice {α : Type _} (xs : List α) (a b : ℕ) : List α := (xs.take b).drop a

noncomputable section RealPlayback

namespace ThreeBody

/-- One trail of update(frame) in 3body.py:
xs[max(0, frame-100):frame]. -/
def trail_window (xs : List ℝ) (frame : ℕ) : List ℝ :=
  pySlice xs (max 0 ((frame : ℤ) - 100)).toNat frame

/-- One body marker of update(frame) in 3body.py: the sample xs[frame]. -/
def body_point (xs : List ℝ) (frame : ℕ) : ℝ := xs.getD frame 0

/-- update(frame) from 3body.py: the set_data payloads of the three body
markers followed by the three trails. -/
def update (x1 y1 x2 y2 x3 y3 : List ℝ) (frame : ℕ) :
    ((ℝ × ℝ) × (ℝ × ℝ) × (ℝ × ℝ)) ×
      ((List ℝ × List ℝ) × (List ℝ × List ℝ) × (List ℝ × List ℝ)) :=
  (((body_point x1 frame, body_point y1 frame),
    (body_point x2 frame, body_point y2 frame),
    (body_point x3 frame, body_point y3 frame)),
   ((trail_window x1 frame, trail_window y1 frame),
    (trail_window x2 frame, trail_window y2 frame),
    (trail_window x3 frame, trail_window y3 frame)))

end ThreeBody

namespace Orbita

/-- trail_length = 200 in orbita.py. -/
def trail_length : ℕ := 200

/-- update_orbits(frame) from orbita.py, for planet line/point i+1 (the loop
runs over bodies 1..3, body 0 being the star): the line gets
positions[i, :, max(0, frame - trail_length):frame] and the point gets
positions[i, :, frame]. -/
def update_orbits (xs ys : Fin 4 → List ℝ) (frame : ℕ) (i : Fin 3) :
    (List ℝ × List ℝ) × (ℝ × ℝ) :=
  let start := (max 0 ((frame : ℤ) - trail_length)).toNat
  ((pySlice (xs i.succ) start frame, pySlice (ys i.succ) start frame),
   ((xs i.succ).getD frame 0, (ys i.succ).getD frame 0))

end Orbita

end RealPlayback

/-! ## orbita.py module state and the slider handler

update_params writes the slider values into mass_star and into each planet
dict, then reset_simulation calls solve_system(mass_star, planets).  The body
of solve_system, however, reads the module-level arrays masses and
initial_conditions, which prepare_initial_conditions computed once at import
from the default planet list (np.array copies them, so later mutation of the
dicts does not reach them); the planets argument is used only for
len(planets).  Exact rational arithmetic (1.5 = 3/2 etc.) keeps every run
decidable. -/

namespace Orbita

/-- One entry of the module-level planets list of orbita.py. -/
structure Planet where
  mass : ℚ
  position : ℚ × ℚ
  velocity : ℚ × ℚ
deriving DecidableEq

/-- The default planets list of orbita.py. -/
def planets0 : List Planet :=
  [⟨1, (10, 0), (0, 3/2)⟩, ⟨1/2, (7, 0), (0, 2)⟩, ⟨2, (15, 0), (0, 6/5)⟩]

/-- prepare_initial_conditions(planets): the mass array and the packed
initial state (positions flattened, then velocities flattened). -/
def prepare_initial_conditions (ps : List Planet) : List ℚ × List ℚ :=
  (ps.map Planet.mass,
   (ps.map (fun p => [p.position.1, p.position.2])).flatten ++
     (ps.map (fun p => [p.velocity.1, p.velocity.2])).flatten)

/-- The module-level mutable state of orbita.py that feeds the solver. -/
structure Globals where
  mass_star : ℚ
  planets : List Planet
  masses : List ℚ
  initial_conditions : List ℚ
deriving DecidableEq

/-- Module state right after import: mass_star = 50 and
masses, initial_conditions = prepare_initial_conditions(planets). -/
def initGlobals : Globals :=
  { mass_star := 50
    planets := planets0
    masses := (prepare_initial_conditions planets0).1
    initial_conditions := (prepare_initial_conditions planets0).2 }

/-- The arrays solve_system(mass_star, planets) hands to solve_ivp: the mass
vector [mass_star] ++ masses and the packed initial state with the star fixed
at the origin with zero velocity.  Mirrors that the function body reads the
module-level masses and initial_conditions and uses its planets argument only
for len(planets). -/
def solve_system_args (g : Globals) : List ℚ × List ℚ :=
  let n := g.planets.length
  let all_masses := g.mass_star :: g.masses
  let all_positions := [(0 : ℚ), 0] ++ g.initial_conditions.take (2 * n)
  let all_velocities := [(0 : ℚ), 0] ++ g.initial_conditions.drop (2 * n)
  (all_masses, all_positions ++ all_velocities)

/-- update_params from orbita.py: writes the four slider values into
mass_star and into every planet's mass, position[0] and velocity[1].
prepare_initial_conditions is not re-run, so the masses and
initial_conditions arrays keep their import-time values. -/
def update_params (star pm dist vel : ℚ) (g : Globals) : Globals :=
  { g with
    mass_star := star
    planets := g.planets.map fun p =>
      { p with
        mass := pm
        position := (dist, p.position.2)
        velocity := (p.velocity.1, vel) } }

end Orbita

/-! ## Click handlers -/

/-- Python runtime error raised by the guard comparison. -/
inductive PyError where
  | typeError
deriving DecidableEq

/-- Index of the first minimal element of a list (np.argmin semantics:
ties resolve to the first occurrence). -/
def argminIdx : List ℚ → ℕ
  | [] => 0
  | a :: r =>
    let j := argminIdx r
    if a ≤ r.getD j a then 0 else j + 1

/-- np.abs(time - x).argmin(): index of the first grid time closest to x. -/
def nearest_idx (time : List ℚ) (x : ℚ) : ℕ :=
  argminIdx (time.map (fun t => |t - x|))

/-- The module-level arrays read by on_click in presa-predador.py. -/
structure PPData where
  time : List ℚ
  preys : List ℚ
  predators : List ℚ
deriving DecidableEq

/-- The module-level arrays read by on_click in sir.py. -/
structure SirData where
  time : List ℚ
  susceptible : List ℚ
  infected : List ℚ
  recovered : List ℚ
deriving DecidableEq

/-- on_click(event) from presa-predador.py.  The guard
0 <= event.xdata <= t_span[1] first evaluates 0 <= event.xdata, which raises
TypeError when the click fell outside the axes (event.xdata is None); with a
numeric in-range x it computes time_idx = np.abs(time - x).argmin() and prints
the populations at that index, writing no state (the arrays are only read).
The handler returns the (unchanged) module state and the printed data. -/
def on_click_pp (st : PPData) (xdata : Option ℚ) :
    Except PyError (PPData × Option (ℚ × ℚ × ℚ)) :=
  match xdata with
  | none => Except.error PyError.typeError
  | some x =>
    if 0 ≤ x ∧ x ≤ 200 then
      let time_idx := nearest_idx st.time x
      Except.ok (st, some (x, st.preys.getD time_idx 0, st.predators.getD time_idx 0))
    else Except.ok (st, none)

/-- on_click(event) from sir.py, same shape as the predator-prey handler but
reporting the three compartments. -/
def on_click_sir (st : SirData) (xdata : Option ℚ) :
    Except PyError (SirData × Option (ℚ × ℚ × ℚ × ℚ)) :=
  match xdata with
  | none => Except.error PyError.typeError
  | some x =>
    if 0 ≤ x ∧ x ≤ 200 then
      let time_idx := nearest_idx st.time x
      Except.ok (st, some (x, st.susceptible.getD time_idx 0,
                           st.infected.getD time_idx 0, st.recovered.getD time_idx 0))
    else Except.ok (st, none)

/-! ## Concrete witness data -/

/-- A concrete 4-sample coordinate series for the C9 witness. -/
noncomputable def wlist : List ℝ := [0, 1, 2, 3]

/-- Concrete predator-prey arrays for the C10 witness. -/
def ppw : PPData := ⟨[0, 100, 200], [40, 30, 20], [9, 12, 15]⟩

/-- Concrete SIR arrays for the C10 witness. -/
def sirw : SirData := ⟨[0, 100, 200], [999, 500, 100], [1, 400, 10], [0, 100, 890]⟩

/-- A concrete three-body state with pairwise distinct positions, for the C4
and C7 witnesses: bodies at (0,0), (1,0), (0,1), all at rest. -/
noncomputable def sWit : ThreeBody.TBState :=
  ⟨0, 0, 1, 0, 0, 1, 0, 0, 0, 0, 0, 0⟩

/-! ## Helper lemmas -/

lemma wlist_len : (2 : ℕ) < wlist.length := by simp [wlist]

lemma argminIdx_lt_length (l : List ℚ) : l ≠ [] → argminIdx l < l.length := by
  induction l with
  | nil => intro h; exact absurd rfl h
  | cons a r ih =>
    intro _
    simp only [argminIdx, List.length_cons]
    by_cases h : a ≤ r.getD (argminIdx r) a
    · rw [if_pos h]; omega
    · rw [if_neg h]
      have hr : r ≠ [] := by
        intro he
        exact h (by simp [he, argminIdx])
      exact Nat.succ_lt_succ (ih hr)

lemma argminIdx_le (l : List ℚ) (k : ℕ) :
    k < l.length → l.getD (argminIdx l) 0 ≤ l.getD k 0 := by
  induction l generalizing k with
  | nil => intro h; simp at h
  | cons a r ih =>
    intro hk
    simp only [argminIdx]
    by_cases h : a ≤ r.getD (argminIdx r) a
    · rw [if_pos h]
      cases k with
      | zero => simp
      | succ k =>
        simp only [List.getD_cons_succ, List.getD_cons_zero]
        have hr : r ≠ [] := by
          intro he
          subst he
          simp at hk
        have hb : argminIdx r < r.length := argminIdx_lt_length r hr
        have heq : r.getD (argminIdx r) a = r.getD (argminIdx r) 0 := by
          rw [List.getD_eq_getElem _ _ hb, List.getD_eq_getElem _ _ hb]
        calc a ≤ r.getD (argminIdx r) a := h
          _ = r.getD (argminIdx r) 0 := heq
          _ ≤ r.getD k 0 := ih k (by simpa using hk)
    · rw [if_neg h]
      push_neg at h
      have hr : r ≠ [] := by
        intro he
        subst he
        simp [argminIdx] at h
      have hb : argminIdx r < r.length := argminIdx_lt_length r hr
      have heq : r.getD (argminIdx r) a = r.getD (argminIdx r) 0 := by
        rw [List.getD_eq_getElem _ _ hb, List.getD_eq_getElem _ _ hb]
      cases k with
      | zero =>
        simp only [List.getD_cons_succ, List.getD_cons_zero]
        calc r.getD (argminIdx r) 0 = r.getD (argminIdx r) a := heq.symm
          _ ≤ a := le_of_lt h
      | succ k =>
        simp only [List.getD_cons_succ]
        exact ih k (by simpa using hk)

lemma nearest_idx_lt (time : List ℚ) (x : ℚ) (h : time ≠ []) :
    nearest_idx time x < time.length := by
  have hm : time.map (fun t => |t - x|) ≠ [] := by simpa using h
  simpa [nearest_idx] using argminIdx_lt_length _ hm

lemma nearest_idx_min (time : List ℚ) (x : ℚ) (h : time ≠ []) (k : ℕ)
    (hk : k < time.length) :
    |time.getD (nearest_idx time x) 0 - x| ≤ |time.getD k 0 - x| := by
  have hb : nearest_idx time x < time.length := nearest_idx_lt time x h
  have hmap := argminIdx_le (time.map fun t => |t - x|) k (by simpa using hk)
  rw [List.getD_eq_getElem _ _ (by simpa [nearest_idx] using hb),
      List.getD_eq_getElem _ _ (by simpa using hk)] at hmap
  rw [List.getD_eq_getElem _ _ hb, List.getD_eq_getElem _ _ hk]
  simpa [nearest_idx] using hmap

lemma trailStart100 (f : ℕ) : (max 0 ((f : ℤ) - 100)).toNat = f - 100 := by
  omega

lemma trailStart_toNat (f L : ℕ) : (max 0 ((f : ℤ) - (L : ℤ))).toNat = f - L := by
  omega

lemma linspace_length (a b : ℚ) (n : ℕ) : (linspace a b n).length = n := by
  rw [linspace, List.length_map, List.length_range]

lemma norm2_axis (a : ℝ) (h : 0 ≤ a) : norm2 (a, 0) = a := by
  simp only [norm2]
  rw [show ((a, (0 : ℝ)).1 ^ 2 + (a, (0 : ℝ)).2 ^ 2) = a ^ 2 by norm_num]
  exact Real.sqrt_sq h

lemma norm2_sub_comm (v w : ℝ × ℝ) : norm2 (v - w) = norm2 (w - v) := by
  simp only [norm2, Prod.fst_sub, Prod.snd_sub]
  congr 1
  ring

lemma filter_ne_zero_fin3 :
    (Finset.univ.filter (fun j => j ≠ (0 : Fin 3))) = {1, 2} := by decide

lemma filter_ne_one_fin3 :
    (Finset.univ.filter (fun j => j ≠ (1 : Fin 3))) = {0, 2} := by decide

lemma filter_ne_two_fin3 :
    (Finset.univ.filter (fun j => j ≠ (2 : Fin 3))) = {0, 1} := by decide

lemma specGravAccel_fin3 (p : Fin 3 → ℝ × ℝ) (m : Fin 3 → ℝ) :
    specGravAccel p m 0 = pairContrib p m 0 1 + pairContrib p m 0 2
    ∧ specGravAccel p m 1 = pairContrib p m 1 0 + pairContrib p m 1 2
    ∧ specGravAccel p m 2 = pairContrib p m 2 0 + pairContrib p m 2 1 := by
  refine ⟨?_, ?_, ?_⟩
  · rw [specGravAccel, filter_ne_zero_fin3, Finset.sum_pair (by decide)]; rfl
  · rw [specGravAccel, filter_ne_one_fin3, Finset.sum_pair (by decide)]; rfl
  · rw [specGravAccel, filter_ne_two_fin3, Finset.sum_pair (by decide)]; rfl

lemma tbAccel_weighted_sum (t : ℝ) (s : ThreeBody.TBState) (m1 m2 m3 : ℝ) :
    m1 • ThreeBody.tbAccel t s m1 m2 m3 0 + m2 • ThreeBody.tbAccel t s m1 m2 m3 1
      + m3 • ThreeBody.tbAccel t s m1 m2 m3 2 = (0 : ℝ × ℝ) := by
  simp only [ThreeBody.tbAccel, ThreeBody.three_body_equations]
  norm_num [List.getD_cons_succ, List.getD_cons_zero, Prod.smul_mk,
    Prod.mk_add_mk, Prod.mk.injEq, smul_eq_mul]
  constructor <;> ring

lemma sWit_distinct :
    ThreeBody.pos3 sWit 0 ≠ ThreeBody.pos3 sWit 1
    ∧ ThreeBody.pos3 sWit 0 ≠ ThreeBody.pos3 sWit 2
    ∧ ThreeBody.pos3 sWit 1 ≠ ThreeBody.pos3 sWit 2 := by
  refine ⟨?_, ?_, ?_⟩ <;> simp [ThreeBody.pos3, sWit, Prod.ext_iff]

/-! ## Claim theorems (first group) -/

/-- C5: for every population pair (Prey, Predator), every time and every
parameter vector (α, β, δ, γ), the predator-prey vector field returns exactly
(α·Prey − β·Prey·Predator, δ·Prey·Predator − γ·Predator). -/
theorem lotka_volterra_field_formula (alpha beta delta gamma t Prey Predator : ℝ) :
    PresaPredador.lotka_volterra alpha beta delta gamma t (Prey, Predator) =
      (alpha * Prey - beta * Prey * Predator,
       delta * Prey * Predator - gamma * Predator) := rfl

/-- Witness for C5 at the default parameters and initial populations. -/
theorem lotka_volterra_field_formula_witness :
    PresaPredador.lotka_volterra (1/10) (1/50) (1/100) (1/10) 0 (40, 9) =
      ((1/10) * 40 - (1/50) * 40 * 9, (1/100) * 40 * 9 - (1/10) * 9) :=
  lotka_volterra_field_formula (1/10) (1/50) (1/100) (1/10) 0 40 9

/-- C6: the SIR vector field returns (−β·S·I/N, β·S·I/N − γ·I, γ·I) with N the
fixed total population 1000; the three components sum to zero; consequently
the total S + I + R is constant along every solution of the dynamics. -/
theorem sir_field_conserves_total (beta gamma t S I R : ℝ) :
    Sir.sir beta gamma t (S, I, R) =
      (-beta * S * I / Sir.population,
       beta * S * I / Sir.population - gamma * I, gamma * I)
    ∧ Sir.sirTotal (Sir.sir beta gamma t (S, I, R)) = 0
    ∧ ∀ fS fI fR : ℝ → ℝ,
        (∀ u, HasDerivAt fS (Sir.sir beta gamma u (fS u, fI u, fR u)).1 u) →
        (∀ u, HasDerivAt fI (Sir.sir beta gamma u (fS u, fI u, fR u)).2.1 u) →
        (∀ u, HasDerivAt fR (Sir.sir beta gamma u (fS u, fI u, fR u)).2.2 u) →
        ∀ a b : ℝ, Sir.sirTotal (fS a, fI a, fR a) = Sir.sirTotal (fS b, fI b, fR b) := by
  refine ⟨rfl, by simp [Sir.sir, Sir.sirTotal]; ring, ?_⟩
  intro fS fI fR hS hI hR a b
  have key : ∀ u : ℝ, HasDerivAt (fun w => fS w + fI w + fR w) 0 u := by
    intro u
    have hsum := ((hS u).add (hI u)).add (hR u)
    have hzero :
        (Sir.sir beta gamma u (fS u, fI u, fR u)).1 +
            (Sir.sir beta gamma u (fS u, fI u, fR u)).2.1 +
            (Sir.sir beta gamma u (fS u, fI u, fR u)).2.2 = 0 := by
      simp [Sir.sir]; ring
    rwa [hzero] at hsum
  have hconst :
      (fun w => fS w + fI w + fR w) a = (fun w => fS w + fI w + fR w) b :=
    is_const_of_deriv_eq_zero (fun u => (key u).differentiableAt)
      (fun u => (key u).deriv) a b
  simpa [Sir.sirTotal] using hconst

/-- Witness for C6 at β = 0.3, γ = 0.1, (S, I, R) = (999, 1, 0). -/
theorem sir_field_conserves_total_witness :
    Sir.sir (3/10) (1/10) 0 (999, 1, 0) =
      (-(3/10) * 999 * 1 / Sir.population,
       (3/10) * 999 * 1 / Sir.population - (1/10) * 1, (1/10) * 1)
    ∧ Sir.sirTotal (Sir.sir (3/10) (1/10) 0 (999, 1, 0)) = 0
    ∧ ∀ fS fI fR : ℝ → ℝ,
        (∀ u, HasDerivAt fS (Sir.sir (3/10) (1/10) u (fS u, fI u, fR u)).1 u) →
        (∀ u, HasDerivAt fI (Sir.sir (3/10) (1/10) u (fS u, fI u, fR u)).2.1 u) →
        (∀ u, HasDerivAt fR (Sir.sir (3/10) (1/10) u (fS u, fI u, fR u)).2.2 u) →
        ∀ a b : ℝ, Sir.sirTotal (fS a, fI a, fR a) = Sir.sirTotal (fS b, fI b, fR b) :=
  sir_field_conserves_total (3/10) (1/10) 0 999 1 0

/-- C3 (code bug evaluation): at the default configuration the star (body 0)
receives the nonzero acceleration (1/100 + 1/98 + 2/225, 0) from the three
planets: the vector field does not keep the star's state derivative at zero,
so the star is not a fixed-position body under the dynamics, contradicting
the code's own comments (Estrela fixa no centro) and plot label. -/
theorem star_acceleration_nonzero :
    Orbita.compute_acceleration Orbita.star_positions Orbita.star_masses 0 =
      (1/100 + 1/98 + 2/225, 0)
    ∧ Orbita.compute_acceleration Orbita.star_positions Orbita.star_masses 0 ≠
        (0, 0) := by
  have hfil : (Finset.univ.filter (fun j => j ≠ (0 : Fin 4))) = {1, 2, 3} := by
    decide
  have n1 : norm2 ((10 : ℝ), (0 : ℝ)) = 10 := norm2_axis 10 (by norm_num)
  have n2 : norm2 ((7 : ℝ), (0 : ℝ)) = 7 := norm2_axis 7 (by norm_num)
  have n3 : norm2 ((15 : ℝ), (0 : ℝ)) = 15 := norm2_axis 15 (by norm_num)
  have hexp : Orbita.compute_acceleration Orbita.star_positions Orbita.star_masses 0 =
      (1/100 + 1/98 + 2/225, 0) := by
    rw [Orbita.compute_acceleration, hfil, Finset.sum_insert (by decide),
      Finset.sum_insert (by decide), Finset.sum_singleton]
    norm_num [Orbita.star_positions, Orbita.star_masses, Orbita.G, n1, n2, n3,
      Prod.mk_sub_mk, Prod.smul_mk, Prod.mk_add_mk, Prod.mk.injEq, smul_eq_mul]
  refine ⟨hexp, ?_⟩
  rw [hexp]
  norm_num [Prod.ext_iff]

/-- C4: for every state with pairwise distinct positions and every mass
vector, the three-body field returns the velocities as position derivatives
and, for each body i, the acceleration equal to the sum over j ≠ i of
m_j · (pos_j − pos_i) / r_ij³; the n-body compute_acceleration of orbita.py
returns the same pair sum; and each pair enters the two bodies with opposite
sign (m_i times the contribution onto i from j is the negative of m_j times
the contribution onto j from i). -/
theorem grav_field_pairwise_sum (t : ℝ) (s : ThreeBody.TBState) (m1 m2 m3 : ℝ)
    (h12 : ThreeBody.pos3 s 0 ≠ ThreeBody.pos3 s 1)
    (h13 : ThreeBody.pos3 s 0 ≠ ThreeBody.pos3 s 2)
    (h23 : ThreeBody.pos3 s 1 ≠ ThreeBody.pos3 s 2) :
    ThreeBody.three_body_equations t s m1 m2 m3 =
      [s.vx1, s.vy1, s.vx2, s.vy2, s.vx3, s.vy3,
       (specGravAccel (ThreeBody.pos3 s) ![m1, m2, m3] 0).1,
       (specGravAccel (ThreeBody.pos3 s) ![m1, m2, m3] 0).2,
       (specGravAccel (ThreeBody.pos3 s) ![m1, m2, m3] 1).1,
       (specGravAccel (ThreeBody.pos3 s) ![m1, m2, m3] 1).2,
       (specGravAccel (ThreeBody.pos3 s) ![m1, m2, m3] 2).1,
       (specGravAccel (ThreeBody.pos3 s) ![m1, m2, m3] 2).2]
    ∧ (∀ (k : ℕ) (p : Fin k → ℝ × ℝ) (m : Fin k → ℝ) (i : Fin k),
        Orbita.compute_acceleration p m i = specGravAccel p m i)
    ∧ (∀ (k : ℕ) (p : Fin k → ℝ × ℝ) (m : Fin k → ℝ) (i j : Fin k), i ≠ j →
        m i • pairContrib p m i j = -(m j • pairContrib p m j i)) := by
  refine ⟨?_, ?_, ?_⟩
  · obtain ⟨g0, g1, g2⟩ := specGravAccel_fin3 (ThreeBody.pos3 s) ![m1, m2, m3]
    rw [g0, g1, g2]
    simp only [ThreeBody.three_body_equations, pairContrib, ThreeBody.pos3,
      Matrix.cons_val_zero, Matrix.cons_val_one, Matrix.head_cons,
      Matrix.cons_val_two, Matrix.tail_cons, Prod.mk_sub_mk, norm2,
      Prod.smul_mk, smul_eq_mul, Prod.mk_add_mk, Prod.fst_add, Prod.snd_add,
      List.cons.injEq, and_true, true_and, eq_self_iff_true]
    refine ⟨?_, ?_, ?_, ?_, ?_, ?_⟩ <;> ring
  · intro k p m i
    rw [Orbita.compute_acceleration, specGravAccel]
    refine Finset.sum_congr rfl fun j hj => ?_
    rw [Orbita.G, one_mul]
  · intro k p m i j hij
    rw [pairContrib, pairContrib, norm2_sub_comm (p i) (p j),
      show p i - p j = -(p j - p i) from (neg_sub (p j) (p i)).symm,
      smul_neg, smul_neg, neg_neg, smul_smul, smul_smul]
    congr 1
    ring

/-- Witness for C4 at t = 0, masses (1, 1, 1) and the state sWit with bodies
at (0,0), (1,0), (0,1). -/
theorem grav_field_pairwise_sum_witness :
    (ThreeBody.pos3 sWit 0 ≠ ThreeBody.pos3 sWit 1
      ∧ ThreeBody.pos3 sWit 0 ≠ ThreeBody.pos3 sWit 2
      ∧ ThreeBody.pos3 sWit 1 ≠ ThreeBody.pos3 sWit 2)
    ∧ (ThreeBody.three_body_equations 0 sWit 1 1 1 =
        [sWit.vx1, sWit.vy1, sWit.vx2, sWit.vy2, sWit.vx3, sWit.vy3,
         (specGravAccel (ThreeBody.pos3 sWit) ![1, 1, 1] 0).1,
         (specGravAccel (ThreeBody.pos3 sWit) ![1, 1, 1] 0).2,
         (specGravAccel (ThreeBody.pos3 sWit) ![1, 1, 1] 1).1,
         (specGravAccel (ThreeBody.pos3 sWit) ![1, 1, 1] 1).2,
         (specGravAccel (ThreeBody.pos3 sWit) ![1, 1, 1] 2).1,
         (specGravAccel (ThreeBody.pos3 sWit) ![1, 1, 1] 2).2]
       ∧ (∀ (k : ℕ) (p : Fin k → ℝ × ℝ) (m : Fin k → ℝ) (i : Fin k),
           Orbita.compute_acceleration p m i = specGravAccel p m i)
       ∧ (∀ (k : ℕ) (p : Fin k → ℝ × ℝ) (m : Fin k → ℝ) (i j : Fin k), i ≠ j →
           m i • pairContrib p m i j = -(m j • pairContrib p m j i))) :=
  ⟨sWit_distinct,
   grav_field_pairwise_sum 0 sWit 1 1 1 sWit_distinct.1 sWit_distinct.2.1
     sWit_distinct.2.2⟩

/-- C7: for every state with pairwise distinct positions and every mass
vector, the mass-weighted sum of the accelerations returned by
three_body_equations is exactly (0, 0); consequently, along any velocity
curves whose derivatives are those accelerations, the total linear momentum
m1·v1 + m2·v2 + m3·v3 is constant. -/
theorem three_body_momentum_conserved (t : ℝ) (s : ThreeBody.TBState)
    (m1 m2 m3 : ℝ)
    (h12 : ThreeBody.pos3 s 0 ≠ ThreeBody.pos3 s 1)
    (h13 : ThreeBody.pos3 s 0 ≠ ThreeBody.pos3 s 2)
    (h23 : ThreeBody.pos3 s 1 ≠ ThreeBody.pos3 s 2) :
    (m1 • ThreeBody.tbAccel t s m1 m2 m3 0 + m2 • ThreeBody.tbAccel t s m1 m2 m3 1
      + m3 • ThreeBody.tbAccel t s m1 m2 m3 2 = (0 : ℝ × ℝ))
    ∧ ∀ (path : ℝ → ThreeBody.TBState) (v1 v2 v3 : ℝ → ℝ × ℝ),
        (∀ u, HasDerivAt v1 (ThreeBody.tbAccel u (path u) m1 m2 m3 0) u) →
        (∀ u, HasDerivAt v2 (ThreeBody.tbAccel u (path u) m1 m2 m3 1) u) →
        (∀ u, HasDerivAt v3 (ThreeBody.tbAccel u (path u) m1 m2 m3 2) u) →
        ∀ a b : ℝ,
          m1 • v1 a + m2 • v2 a + m3 • v3 a =
            m1 • v1 b + m2 • v2 b + m3 • v3 b := by
  refine ⟨tbAccel_weighted_sum t s m1 m2 m3, ?_⟩
  intro path v1 v2 v3 hv1 hv2 hv3 a b
  have key : ∀ u : ℝ,
      HasDerivAt (fun w => m1 • v1 w + m2 • v2 w + m3 • v3 w) 0 u := by
    intro u
    have h := (((hv1 u).const_smul m1).add ((hv2 u).const_smul m2)).add
      ((hv3 u).const_smul m3)
    rwa [tbAccel_weighted_sum u (path u) m1 m2 m3] at h
  simpa using is_const_of_deriv_eq_zero (fun u => (key u).differentiableAt)
    (fun u => (key u).deriv) a b

/-- Witness for C7 at t = 0, masses (1, 1, 1) and the state sWit. -/
theorem three_body_momentum_conserved_witness :
    (ThreeBody.pos3 sWit 0 ≠ ThreeBody.pos3 sWit 1
      ∧ ThreeBody.pos3 sWit 0 ≠ ThreeBody.pos3 sWit 2
      ∧ ThreeBody.pos3 sWit 1 ≠ ThreeBody.pos3 sWit 2)
    ∧ (((1 : ℝ) • ThreeBody.tbAccel 0 sWit 1 1 1 0
          + (1 : ℝ) • ThreeBody.tbAccel 0 sWit 1 1 1 1
          + (1 : ℝ) • ThreeBody.tbAccel 0 sWit 1 1 1 2 = (0 : ℝ × ℝ))
       ∧ ∀ (path : ℝ → ThreeBody.TBState) (v1 v2 v3 : ℝ → ℝ × ℝ),
           (∀ u, HasDerivAt v1 (ThreeBody.tbAccel u (path u) 1 1 1 0) u) →
           (∀ u, HasDerivAt v2 (ThreeBody.tbAccel u (path u) 1 1 1 1) u) →
           (∀ u, HasDerivAt v3 (ThreeBody.tbAccel u (path u) 1 1 1 2) u) →
           ∀ a b : ℝ,
             (1 : ℝ) • v1 a + (1 : ℝ) • v2 a + (1 : ℝ) • v3 a =
               (1 : ℝ) • v1 b + (1 : ℝ) • v2 b + (1 : ℝ) • v3 b) :=
  ⟨sWit_distinct,
   three_body_momentum_conserved 0 sWit 1 1 1 sWit_distinct.1 sWit_distinct.2.1
     sWit_distinct.2.2⟩

/-- C1 (code bug evaluation): moving the star slider back to its default 50
and the planet-mass, distance and velocity sliders to 5, 20, 5 updates every
planet entry as the handler intends, yet the recompute hands solve_ivp
exactly the arrays it received before the change: the import-time planet
masses [1, 1/2, 2] and the import-time initial state.  The updated parameter
entries never reach the solver. -/
theorem orbita_sliders_do_not_reach_solver :
    (Orbita.update_params 50 5 20 5 Orbita.initGlobals).planets =
      [⟨5, (20, 0), (0, 5)⟩, ⟨5, (20, 0), (0, 5)⟩, ⟨5, (20, 0), (0, 5)⟩]
    ∧ Orbita.solve_system_args (Orbita.update_params 50 5 20 5 Orbita.initGlobals) =
        Orbita.solve_system_args Orbita.initGlobals
    ∧ (Orbita.solve_system_args Orbita.initGlobals).1 = [50, 1, 1/2, 2]
    ∧ (Orbita.solve_system_args Orbita.initGlobals).2 =
        [0, 0, 10, 0, 7, 0, 15, 0, 0, 0, 0, 3/2, 0, 2, 0, 6/5] := by
  norm_num [Orbita.update_params, Orbita.initGlobals, Orbita.planets0,
    Orbita.prepare_initial_conditions, Orbita.solve_system_args]

/-- C2 counterexample: in 3body.py the playback runs over 1000 frames; the
frame sequence reaches the last valid index 999 at tick 999 and the very next
tick shows frame 0 again (FuncAnimation restarts with repeat=True), so ticks
after the last frame do not leave the frame index unchanged. -/
theorem playback_no_wraparound_cex :
    Playback.frameAt 1000 999 = 999 ∧ Playback.frameAt 1000 1000 = 0
      ∧ Playback.frameAt 1000 1000 ≠ 999 := by decide

/-- C2 amended: the frame index always stays in [0, n); after the last frame
the sequence wraps around to frame 0 and playback restarts automatically
(the n-th tick shows frame 0), the sequence being periodic with period n. -/
theorem playback_frame_wraparound (n k : ℕ) (hn : 0 < n) :
    Playback.frameAt n k < n
    ∧ Playback.frameAt n (n - 1) = n - 1
    ∧ Playback.frameAt n n = 0
    ∧ Playback.frameAt n (k + n) = Playback.frameAt n k := by
  simp only [Playback.frameAt]
  exact ⟨Nat.mod_lt _ hn, Nat.mod_eq_of_lt (by omega), Nat.mod_self n,
    Nat.add_mod_right k n⟩

/-- Witness for the amended C2 at n = 1000, k = 999. -/
theorem playback_frame_wraparound_witness :
    0 < 1000
    ∧ (Playback.frameAt 1000 999 < 1000
       ∧ Playback.frameAt 1000 (1000 - 1) = 1000 - 1
       ∧ Playback.frameAt 1000 1000 = 0
       ∧ Playback.frameAt 1000 (999 + 1000) = Playback.frameAt 1000 999) :=
  ⟨by decide, playback_frame_wraparound 1000 999 (by decide)⟩

/-- C8: for every parameter set (hence every dense solution the solver may
return) and every model, the sampled trajectory has exactly the length of the
evaluation grid: 1000 samples for three-body, 2000 for star+planets, 500 for
predator-prey and for SIR. -/
theorem trajectory_length_eq_grid_length {σ : Type} (sol : ℚ → σ) :
    (solve_three_body_traj sol).length = t_eval_three_body.length
    ∧ t_eval_three_body.length = 1000
    ∧ (solve_system_traj sol).length = time_eval.length
    ∧ time_eval.length = 2000
    ∧ (solve_model_traj sol).length = t_eval_pp.length
    ∧ t_eval_pp.length = 500
    ∧ (solve_sir_traj sol).length = t_eval_sir.length
    ∧ t_eval_sir.length = 500 := by
  simp only [solve_three_body_traj, solve_system_traj, solve_model_traj,
    solve_sir_traj, solve_ivp_eval, List.length_map, t_eval_three_body,
    time_eval, t_eval_pp, t_eval_sir, linspace_length]
  exact ⟨trivial, trivial, trivial, trivial, trivial, trivial, trivial, trivial⟩

/-- Witness for C8 at the constant zero dense solution. -/
theorem trajectory_length_eq_grid_length_witness :
    (solve_three_body_traj (fun _ => (0 : ℚ))).length = t_eval_three_body.length
    ∧ t_eval_three_body.length = 1000
    ∧ (solve_system_traj (fun _ => (0 : ℚ))).length = time_eval.length
    ∧ time_eval.length = 2000
    ∧ (solve_model_traj (fun _ => (0 : ℚ))).length = t_eval_pp.length
    ∧ t_eval_pp.length = 500
    ∧ (solve_sir_traj (fun _ => (0 : ℚ))).length = t_eval_sir.length
    ∧ t_eval_sir.length = 500 :=
  trajectory_length_eq_grid_length (fun _ => (0 : ℚ))

/-- C9: at every valid frame index f the tick handlers produce exactly the
slice [max(0, f − trailLength), f) of each coordinate series as the trail
(natural subtraction f − L is max(0, f − L)) together with the exact sample at
index f as the current point, with trailLength 100 in 3body.py and 200 in
orbita.py. -/
theorem tick_visible_window
    (x1 y1 x2 y2 x3 y3 : List ℝ) (f : ℕ)
    (h1 : f < x1.length) (h2 : f < y1.length) (h3 : f < x2.length)
    (h4 : f < y2.length) (h5 : f < x3.length) (h6 : f < y3.length) :
    ThreeBody.update x1 y1 x2 y2 x3 y3 f =
      (((x1.get ⟨f, h1⟩, y1.get ⟨f, h2⟩),
        (x2.get ⟨f, h3⟩, y2.get ⟨f, h4⟩),
        (x3.get ⟨f, h5⟩, y3.get ⟨f, h6⟩)),
       (((x1.take f).drop (f - 100), (y1.take f).drop (f - 100)),
        ((x2.take f).drop (f - 100), (y2.take f).drop (f - 100)),
        ((x3.take f).drop (f - 100), (y3.take f).drop (f - 100))))
    ∧ ∀ (xs ys : Fin 4 → List ℝ) (hx : ∀ b, f < (xs b).length)
        (hy : ∀ b, f < (ys b).length) (i : Fin 3),
        Orbita.update_orbits xs ys f i =
          ((((xs i.succ).take f).drop (f - 200),
            ((ys i.succ).take f).drop (f - 200)),
           ((xs i.succ).get ⟨f, hx i.succ⟩, (ys i.succ).get ⟨f, hy i.succ⟩)) := by
  constructor
  · have e1 : x1.getD f 0 = x1.get ⟨f, h1⟩ := by
      rw [List.getD_eq_getElem _ _ h1, List.get_eq_getElem]
    have e2 : y1.getD f 0 = y1.get ⟨f, h2⟩ := by
      rw [List.getD_eq_getElem _ _ h2, List.get_eq_getElem]
    have e3 : x2.getD f 0 = x2.get ⟨f, h3⟩ := by
      rw [List.getD_eq_getElem _ _ h3, List.get_eq_getElem]
    have e4 : y2.getD f 0 = y2.get ⟨f, h4⟩ := by
      rw [List.getD_eq_getElem _ _ h4, List.get_eq_getElem]
    have e5 : x3.getD f 0 = x3.get ⟨f, h5⟩ := by
      rw [List.getD_eq_getElem _ _ h5, List.get_eq_getElem]
    have e6 : y3.getD f 0 = y3.get ⟨f, h6⟩ := by
      rw [List.getD_eq_getElem _ _ h6, List.get_eq_getElem]
    simp only [ThreeBody.update, ThreeBody.trail_window, ThreeBody.body_point,
      pySlice, trailStart100]
    rw [e1, e2, e3, e4, e5, e6]
  · intro xs ys hx hy i
    have ex : (xs i.succ).getD f 0 = (xs i.succ).get ⟨f, hx i.succ⟩ := by
      rw [List.getD_eq_getElem _ _ (hx i.succ), List.get_eq_getElem]
    have ey : (ys i.succ).getD f 0 = (ys i.succ).get ⟨f, hy i.succ⟩ := by
      rw [List.getD_eq_getElem _ _ (hy i.succ), List.get_eq_getElem]
    simp only [Orbita.update_orbits, Orbita.trail_length, pySlice, trailStart_toNat]
    rw [ex, ey]

/-- Witness for C9 at frame 2 on a 4-sample series. -/
theorem tick_visible_window_witness :
    ((2 : ℕ) < wlist.length)
    ∧ (ThreeBody.update wlist wlist wlist wlist wlist wlist 2 =
        (((wlist.get ⟨2, wlist_len⟩, wlist.get ⟨2, wlist_len⟩),
          (wlist.get ⟨2, wlist_len⟩, wlist.get ⟨2, wlist_len⟩),
          (wlist.get ⟨2, wlist_len⟩, wlist.get ⟨2, wlist_len⟩)),
         (((wlist.take 2).drop (2 - 100), (wlist.take 2).drop (2 - 100)),
          ((wlist.take 2).drop (2 - 100), (wlist.take 2).drop (2 - 100)),
          ((wlist.take 2).drop (2 - 100), (wlist.take 2).drop (2 - 100))))
       ∧ ∀ (xs ys : Fin 4 → List ℝ) (hx : ∀ b, 2 < (xs b).length)
           (hy : ∀ b, 2 < (ys b).length) (i : Fin 3),
           Orbita.update_orbits xs ys 2 i =
             ((((xs i.succ).take 2).drop (2 - 200),
               ((ys i.succ).take 2).drop (2 - 200)),
              ((xs i.succ).get ⟨2, hx i.succ⟩, (ys i.succ).get ⟨2, hy i.succ⟩))) :=
  ⟨wlist_len, tick_visible_window wlist wlist wlist wlist wlist wlist 2
    wlist_len wlist_len wlist_len wlist_len wlist_len wlist_len⟩

/-- C10: the click handlers of presa-predador.py and sir.py raise TypeError on
a click without a numeric x-coordinate (the guard 0 <= event.xdata itself
fails on None); for a numeric x in [0, 200] they return the module state
unchanged together with the populations at the nearest grid index, and the
reported index is a genuine nearest-grid-index lookup (in range, minimizing
the distance to the clicked time over the whole grid). -/
theorem click_guard_and_readonly_query (st : PPData) (st2 : SirData) (x : ℚ) :
    on_click_pp st none = Except.error PyError.typeError
    ∧ on_click_sir st2 none = Except.error PyError.typeError
    ∧ (0 ≤ x → x ≤ 200 →
        on_click_pp st (some x) =
          Except.ok (st, some (x, st.preys.getD (nearest_idx st.time x) 0,
                               st.predators.getD (nearest_idx st.time x) 0))
        ∧ on_click_sir st2 (some x) =
          Except.ok (st2, some (x, st2.susceptible.getD (nearest_idx st2.time x) 0,
                                st2.infected.getD (nearest_idx st2.time x) 0,
                                st2.recovered.getD (nearest_idx st2.time x) 0)))
    ∧ (st.time ≠ [] →
        nearest_idx st.time x < st.time.length
        ∧ ∀ k, k < st.time.length →
            |st.time.getD (nearest_idx st.time x) 0 - x| ≤
              |st.time.getD k 0 - x|) := by
  refine ⟨rfl, rfl, fun hx0 hx2 => ?_,
    fun hne => ⟨nearest_idx_lt _ _ hne, fun k hk => nearest_idx_min _ _ hne k hk⟩⟩
  constructor <;> simp [on_click_pp, on_click_sir, if_pos (And.intro hx0 hx2)]

/-- Witness for C10 at the in-range click x = 120 on 3-sample grids. -/
theorem click_guard_and_readonly_query_witness :
    (on_click_pp ppw none = Except.error PyError.typeError
      ∧ on_click_sir sirw none = Except.error PyError.typeError)
    ∧ ((0 : ℚ) ≤ 120 ∧ (120 : ℚ) ≤ 200 ∧ ppw.time ≠ [])
    ∧ (on_click_pp ppw (some 120) =
        Except.ok (ppw, some (120, ppw.preys.getD (nearest_idx ppw.time 120) 0,
                              ppw.predators.getD (nearest_idx ppw.time 120) 0))
       ∧ on_click_sir sirw (some 120) =
        Except.ok (sirw, some (120, sirw.susceptible.getD (nearest_idx sirw.time 120) 0,
                               sirw.infected.getD (nearest_idx sirw.time 120) 0,
                               sirw.recovered.getD (nearest_idx sirw.time 120) 0)))
    ∧ nearest_idx ppw.time 120 < ppw.time.length :=
  ⟨⟨(click_guard_and_readonly_query ppw sirw 120).1,
    (click_guard_and_readonly_query ppw sirw 120).2.1⟩,
   ⟨by norm_num, by norm_num, by decide⟩,
   (click_guard_and_readonly_query ppw sirw 120).2.2.1 (by norm_num) (by norm_num),
   ((click_guard_and_readonly_query ppw sirw 120).2.2.2 (by decide)).1⟩

end DiffEqAnim
